import Mathlib

/-!
Verification of the group-collaboration and budget-enforcement core of a
multi-tenant finance tracker (React + Supabase).  The relational rows, the
row-level-security policies (final versions after all migrations), and the
client-side hook operations are shallowly embedded as executable Lean
definitions; user ids, group ids and row ids are modelled as naturals,
monetary amounts as rationals, and calendar dates in the string format
yyyy-MM-dd as naturals of the shape y*10000 + m*100 + d, which is
order-isomorphic to the lexicographic order on the date strings the code
compares with <=.  Transaction date values are stored already normalized to
a calendar day, which is what normalizeDateStr produces from the stored
yyyy-MM-dd strings (it slices the first ten characters).
-/

namespace BudgetBuddy

/-- A calendar date; `code` renders it in the yyyy-MM-dd comparison order. -/
structure Date where
  year : Nat
  month : Nat
  day : Nat
deriving DecidableEq

def Date.code (d : Date) : Nat := d.year * 10000 + d.month * 100 + d.day

def isLeapYear (y : Nat) : Bool :=
  (y % 4 == 0 && y % 100 != 0) || y % 400 == 0

def daysInMonth (y m : Nat) : Nat :=
  if m == 2 then (if isLeapYear y then 29 else 28)
  else if m == 4 || m == 6 || m == 9 || m == 11 then 30
  else 31

/-- JavaScript endDate.setDate(endDate.getDate() + 1): the next calendar day. -/
def Date.nextDay (d : Date) : Date :=
  if d.day < daysInMonth d.year d.month then ⟨d.year, d.month, d.day + 1⟩
  else if d.month < 12 then ⟨d.year, d.month + 1, 1⟩
  else ⟨d.year + 1, 1, 1⟩

/-- JavaScript new Date(currentDate.getFullYear(), 11, 31): December 31 of the same year. -/
def Date.endOfYear (d : Date) : Date := ⟨d.year, 12, 31⟩

/-- Row of public.groups. -/
structure GroupRow where
  id : Nat
  name : String
  created_by : Nat
  total_expenditure_limit : Option Rat
deriving DecidableEq

/-- Row of public.group_members (UNIQUE(group_id, user_id)). -/
structure GroupMemberRow where
  id : Nat
  group_id : Nat
  user_id : Nat
  role : String
deriving DecidableEq

/-- Row of public.group_invitations (UNIQUE(group_id, invited_email)). -/
structure GroupInvitationRow where
  id : Nat
  group_id : Nat
  invited_by : Nat
  invited_email : String
  invited_user_id : Option Nat
  status : String
deriving DecidableEq

/-- Row of public.categories; the SQL column named type is called ctype here. -/
structure CategoryRow where
  id : Nat
  user_id : Nat
  name : String
  color : String
  ctype : String
deriving DecidableEq

/-- Row of public.transactions; the SQL column named type is called ttype here. -/
structure TransactionRow where
  id : Nat
  user_id : Nat
  category_id : Option Nat
  group_id : Option Nat
  amount : Rat
  ttype : String
  date : Nat
deriving DecidableEq

/-- Row of public.budgets (personal budgets). -/
structure BudgetRow where
  id : Nat
  user_id : Nat
  category_id : Option Nat
  amount : Rat
  period : String
  start_date : Nat
  end_date : Nat
deriving DecidableEq

/-- Row of public.group_budgets. -/
structure GroupBudgetRow where
  id : Nat
  group_id : Nat
  category_id : Option Nat
  amount : Rat
  period : String
  start_date : Nat
  end_date : Nat
  created_by : Nat
deriving DecidableEq

/-- SECURITY DEFINER function public.is_group_member: a GroupMember row exists
for the pair.  It is the trusted, non-recursive membership primitive: it reads
the table directly, bypassing row-level security. -/
def is_group_member (group_members : List GroupMemberRow) (group_uuid user_uuid : Nat) : Bool :=
  group_members.any fun m => m.group_id == group_uuid && m.user_id == user_uuid

/-- SECURITY DEFINER function public.is_group_admin: the user created the group
or holds an admin membership row. -/
def is_group_admin (groups : List GroupRow) (group_members : List GroupMemberRow)
    (group_uuid user_uuid : Nat) : Bool :=
  (groups.any fun g => g.id == group_uuid && g.created_by == user_uuid) ||
    (group_members.any fun m =>
      m.group_id == group_uuid && m.user_id == user_uuid && m.role == "admin")

/-- SECURITY DEFINER function public.current_user_email: resolves the calling
user to their account email via a trusted server-side lookup of auth.users;
the lookup function account_email stands for that table. -/
def current_user_email (account_email : Nat → String) (uid : Nat) : String :=
  account_email uid

/-- Final SELECT policy on public.transactions (migration 20250913231515):
auth.uid() = user_id OR (group_id IS NOT NULL AND is_group_member(group_id, auth.uid())). -/
def canSelectTransaction (group_members : List GroupMemberRow) (uid : Nat)
    (t : TransactionRow) : Bool :=
  uid == t.user_id ||
    (match t.group_id with
     | some g => is_group_member group_members g uid
     | none => false)

/-- Final SELECT policy on public.group_invitations (the current_user_email
migration): invited_user_id = auth.uid() OR invited_by = auth.uid() OR
invited_email = public.current_user_email(). -/
def canSelectInvitation (account_email : Nat → String) (uid : Nat)
    (inv : GroupInvitationRow) : Bool :=
  inv.invited_user_id == some uid || inv.invited_by == uid ||
    inv.invited_email == current_user_email account_email uid

/-- Invitation visibility as the spec words it (for comparison with the policy
actually installed): the email branch additionally requires invited_user_id to
still be null. -/
def specInvitationVisible (account_email : Nat → String) (uid : Nat)
    (inv : GroupInvitationRow) : Bool :=
  inv.invited_user_id == some uid || inv.invited_by == uid ||
    (inv.invited_user_id == none && inv.invited_email == account_email uid)

/-- A concrete auth.users email table for counterexamples: user 1 owns a@b. -/
def demoEmail : Nat → String := fun u => if u == 1 then "a@b" else "z"

/-- The category row a transaction or group budget joins to, by id; models the
Supabase select of categories(name) alongside the row. -/
def joined_category_name (categories : List CategoryRow) (cid : Option Nat) : Option String :=
  cid.bind fun c => (categories.find? fun cat => cat.id == c).map fun cat => cat.name

/-- The derived category_name attached to a fetched group budget in
useGroupBudgets: budget.categories?.name || 'Unknown'. -/
def GroupBudgetRow.category_name (categories : List CategoryRow) (b : GroupBudgetRow) : String :=
  (joined_category_name categories b.category_id).getD "Unknown"

/-- One entry of budgetProgressData, shared by the personal BudgetOverview and
the group GroupBudgetOverview components. -/
structure BudgetProgress where
  name : String
  spent : Rat
  budget : Rat
  percentage : Rat
  actualPercentage : Rat
  isOverBudget : Bool
  color : String
  overspent : Rat
deriving DecidableEq

/-- Result of the totalExpenditureStatus memo, identical in shape in both the
personal and the group overview. -/
structure TotalStatus where
  spent : Rat
  limit : Rat
  percentage : Rat
  actualPercentage : Rat
  isOverLimit : Bool
  overspent : Rat
deriving DecidableEq

/-- budgetProgressData of GroupBudgetOverview (ProfileSettingsDialog.tsx):
keep daily budgets active for today, then for each one sum the expense
transactions of the day whose joined category NAME equals the budget's derived
category_name (cross-member reconciliation by name, not id). -/
def groupBudgetProgressData (categories : List CategoryRow) (transactions : List TransactionRow)
    (budgets : List GroupBudgetRow) (todayStr : Nat) : List BudgetProgress :=
  let activeBudgets := budgets.filter fun b =>
    b.period == "daily" && decide (b.start_date ≤ todayStr) && decide (todayStr ≤ b.end_date)
  activeBudgets.map fun budget =>
    let cname := GroupBudgetRow.category_name categories budget
    let categorySpending := ((transactions.filter fun t =>
        t.ttype == "expense" && t.date == todayStr &&
        joined_category_name categories t.category_id == some cname).map fun t => t.amount).sum
    let budgetAmount := budget.amount
    let percentage : Rat := if budgetAmount > 0 then categorySpending / budgetAmount * 100 else 0
    let isOverBudget := decide (percentage > 100)
    { name := cname, spent := categorySpending, budget := budgetAmount,
      percentage := min percentage 100, actualPercentage := percentage,
      isOverBudget := isOverBudget,
      color := (joined_category_name categories budget.category_id).getD "#64748b",
      overspent := if isOverBudget then categorySpending - budgetAmount else 0 }

/-- budgetProgressData of the personal BudgetOverview component: keep daily
budgets with a category that are active for today; drop budgets whose category
row is missing; sum the expense transactions of the day whose category id is
one of the ids sharing the category's name (duplicate identically-named
categories are reconciled by name here too). -/
def budgetProgressData (budgets : List BudgetRow) (categories : List CategoryRow)
    (transactions : List TransactionRow) (todayStr : Nat) : List BudgetProgress :=
  let activeBudgets := budgets.filter fun b =>
    b.period == "daily" && b.category_id != none &&
      decide (b.start_date ≤ todayStr) && decide (todayStr ≤ b.end_date)
  activeBudgets.filterMap fun budget =>
    match categories.find? fun c => some c.id == budget.category_id with
    | none => none
    | some category =>
      let sameNameCategoryIds :=
        (categories.filter fun c => c.ctype == "expense" && c.name == category.name).map
          fun c => c.id
      let categorySpending := ((transactions.filter fun t =>
          t.ttype == "expense" && t.date == todayStr &&
          (match t.category_id with
           | some cid => sameNameCategoryIds.contains cid
           | none => false)).map fun t => t.amount).sum
      let budgetAmount := budget.amount
      let percentage : Rat := if budgetAmount > 0 then categorySpending / budgetAmount * 100 else 0
      let isOverBudget := decide (percentage > 100)
      some { name := category.name, spent := categorySpending, budget := budgetAmount,
             percentage := min percentage 100, actualPercentage := percentage,
             isOverBudget := isOverBudget, color := category.color,
             overspent := if isOverBudget then categorySpending - budgetAmount else 0 }

/-- totalExpenditureStatus, the same computation in BudgetOverview (personal,
fed by profile.total_expenditure_limit) and in GroupBudgetOverview (group, fed
by groupInfo.total_expenditure_limit).  The leading JavaScript falsiness guard
(!limit) returns null both when the limit is absent and when it is 0, so a zero
limit produces no status at all and the division below it never runs with a
zero divisor. -/
def totalExpenditureStatus (total_expenditure_limit : Option Rat)
    (transactions : List TransactionRow) (todayStr : Nat) : Option TotalStatus :=
  match total_expenditure_limit with
  | none => none
  | some lim =>
    if lim == 0 then none
    else
      let totalSpent := ((transactions.filter fun t =>
          t.ttype == "expense" && t.date == todayStr).map fun t => t.amount).sum
      let percentage := totalSpent / lim * 100
      let isOverLimit := decide (percentage > 100)
      some { spent := totalSpent, limit := lim, percentage := min percentage 100,
             actualPercentage := percentage, isOverLimit := isOverLimit,
             overspent := if isOverLimit then totalSpent - lim else 0 }

/-- Two group members (users 10 and 20) each own their own expense category row
named Food, with distinct ids 1 and 2. -/
def foodCategories : List CategoryRow :=
  [⟨1, 10, "Food", "red", "expense"⟩, ⟨2, 20, "Food", "blue", "expense"⟩]

/-- Each member spends on their own Food row on the same day in group 7:
member 10 spends 300 against category 1, member 20 spends 250 against
category 2. -/
def foodTransactions : List TransactionRow :=
  [⟨100, 10, some 1, some 7, 300, "expense", 20261011⟩,
   ⟨101, 20, some 2, some 7, 250, "expense", 20261011⟩]

/-- A group budget of 500 for group 7, persisted against member 10's Food
category row (id 1), active daily over the day 2026-10-11. -/
def foodGroupBudget : GroupBudgetRow := ⟨50, 7, some 1, 500, "daily", 20261001, 20261231, 10⟩

/-- C2: a transaction with null group_id is readable exactly by its owner; a
transaction with group_id set is readable exactly by its owner and the members
of that group (so by every member regardless of user_id).  The policy is a pure
read predicate, so evaluating it never changes the row, in particular not its
user_id. -/
theorem c2_transaction_visibility (group_members : List GroupMemberRow) (uid : Nat)
    (t : TransactionRow) :
    (t.group_id = none → (canSelectTransaction group_members uid t = true ↔ uid = t.user_id)) ∧
    (∀ g, t.group_id = some g →
      (canSelectTransaction group_members uid t = true ↔
        (uid = t.user_id ∨ is_group_member group_members g uid = true))) := by
  constructor
  · intro h
    simp [canSelectTransaction, h]
  · intro g h
    simp [canSelectTransaction, h]

/-- Witness for C2 at concrete rows: a personal transaction owned by user 1 and
a group transaction of group 7 read by member 2. -/
theorem c2_transaction_visibility_witness :
    (canSelectTransaction [] 1 ⟨10, 1, none, none, 5, "expense", 20261011⟩ = true ↔ 1 = 1) ∧
    (canSelectTransaction [⟨1, 7, 2, "member"⟩] 2 ⟨11, 1, none, some 7, 5, "expense", 20261011⟩ = true ↔
      (2 = 1 ∨ is_group_member [⟨1, 7, 2, "member"⟩] 7 2 = true)) :=
  ⟨(c2_transaction_visibility [] 1 ⟨10, 1, none, none, 5, "expense", 20261011⟩).1 rfl,
   (c2_transaction_visibility [⟨1, 7, 2, "member"⟩] 2
      ⟨11, 1, none, some 7, 5, "expense", 20261011⟩).2 7 rfl⟩

/-- C4 counterexample: an invitation whose invited_user_id is already set to
user 2 but whose invited_email is the account email of user 1 is readable by
user 1 under the installed policy, while the spec predicate (email branch
guarded by invited_user_id still null) denies it — the claimed equivalence
fails at this row. -/
theorem c4_invitation_visibility_counterexample :
    ¬ (canSelectInvitation demoEmail 1 ⟨7, 3, 2, "a@b", some 2, "pending"⟩ = true ↔
        specInvitationVisible demoEmail 1 ⟨7, 3, 2, "a@b", some 2, "pending"⟩ = true) := by
  decide

/-- C4 amended: an invitation is readable by a user iff invited_user_id equals
the user, or invited_by equals the user, or invited_email equals the account
email resolved by the trusted server-side lookup — with no requirement that
invited_user_id still be null in the email branch. -/
theorem c4_invitation_visibility_amended (account_email : Nat → String) (uid : Nat)
    (inv : GroupInvitationRow) :
    canSelectInvitation account_email uid inv = true ↔
      (inv.invited_user_id = some uid ∨ inv.invited_by = uid ∨
        inv.invited_email = account_email uid) := by
  simp [canSelectInvitation, current_user_email, or_assoc]

namespace useBudgets

/-- setBudgetLimit of the personal useBudgets hook.  The budgets list is the
authenticated user's own budget rows (the fetch filters on user_id).  The find
is keyed by category id alone; on a hit the row is updated in place (amount,
and the row is re-dated daily from today to the NEXT day); on a miss a new
daily row is inserted with start_date today and end_date the next day.  The
source also validates that the category id is a UUID before this; id
well-formedness is outside the model. -/
def setBudgetLimit (budgets : List BudgetRow) (user_id category_id : Nat) (amount : Rat)
    (today : Date) (freshId : Nat) : List BudgetRow :=
  match budgets.find? fun b => b.category_id == some category_id with
  | some existingBudget =>
    budgets.map fun b =>
      if b.id == existingBudget.id then
        { b with
          amount := amount,
          period := "daily",
          start_date := today.code,
          end_date := today.nextDay.code }
      else b
  | none =>
    budgets ++ [{
      id := freshId,
      user_id := user_id,
      category_id := some category_id,
      amount := amount,
      period := "daily",
      start_date := today.code,
      end_date := today.nextDay.code }]

end useBudgets

namespace useGroupBudgets

/-- setBudgetLimit of the useGroupBudgets hook (Groups.tsx).  The find is keyed
by the derived category_name plus period daily; on a hit only the amount is
updated in place; on a miss the hook looks up any accessible expense category
carrying that name, and inserts a new daily row against that category id with
start_date today and end_date December 31 of the current year.  When no such
category exists the call fails (throws Category not found), modelled as none. -/
def setBudgetLimit (budgets : List GroupBudgetRow) (categories : List CategoryRow)
    (group_id user_id : Nat) (categoryName : String) (amount : Rat)
    (today : Date) (freshId : Nat) : Option (List GroupBudgetRow) :=
  match budgets.find? fun b => b.category_name categories == categoryName && b.period == "daily" with
  | some existingBudget =>
    some (budgets.map fun b =>
      if b.id == existingBudget.id then { b with amount := amount } else b)
  | none =>
    match categories.find? fun c => c.name == categoryName && c.ctype == "expense" with
    | none => none
    | some userCategory =>
      some (budgets ++ [{
        id := freshId,
        group_id := group_id,
        category_id := some userCategory.id,
        amount := amount,
        period := "daily",
        start_date := today.code,
        end_date := today.endOfYear.code,
        created_by := user_id }])

end useGroupBudgets

/-- Minutes-since-epoch model of the clock and date handling.  A JavaScript
Date is an instant; rendering it in a timezone adds that timezone's offset in
minutes, and the calendar day is the floor-division of the rendered wall-clock
minutes by 1440.  The viewing client's own timezone offset is a parameter. -/
def dayOf (minutes : Int) : Int := minutes.fdiv 1440

/-- Offset of the fixed reference timezone Asia/Kolkata, in minutes. -/
def istOffset : Int := 330

/-- format(new Date(), 'yyyy-MM-dd') in ProfileSettingsDialog: the calendar day
in the client's local timezone. -/
def jsLocalDateStr (t offset : Int) : Int := dayOf (t + offset)

/-- getCurrentDateIST: new Date(new Date().toLocaleString(en-US, Asia/Kolkata)).
The locale string shows the IST wall clock t + 330; re-parsing it as a local
time yields the instant t + 330 - offset. -/
def getCurrentDateIST (t offset : Int) : Int := t + istOffset - offset

/-- formatDateStringIST: formatInTimeZone(instant, Asia/Kolkata, 'yyyy-MM-dd'),
which adds the IST offset once more to the instant it is given. -/
def formatDateStringIST (instant : Int) : Int := dayOf (instant + istOffset)

/-- The todayStr of the personal BudgetOverview:
formatDateStringIST(getCurrentDateIST()). -/
def personalTodayStr (t offset : Int) : Int := formatDateStringIST (getCurrentDateIST t offset)

/-- The todayStr of the group GroupBudgetOverview: format(new Date(), yyyy-MM-dd). -/
def groupTodayStr (t offset : Int) : Int := jsLocalDateStr t offset

/-- The calendar day at instant t in the fixed reference timezone. -/
def istDate (t : Int) : Int := dayOf (t + istOffset)

/-- The relational store the group hooks mutate. -/
structure Store where
  groups : List GroupRow
  group_members : List GroupMemberRow
  group_invitations : List GroupInvitationRow
deriving DecidableEq

/-- Outcome of inviteToGroup: success, or the duplicate-pending rejection. -/
inductive InviteResult where
  | success : InviteResult
  | duplicateInvitation : InviteResult
deriving DecidableEq

/-- inviteToGroup of useGroups: look up the invitation for (group, email) — at
most one exists by the UNIQUE(group_id, invited_email) constraint.  A pending
one rejects the call as a duplicate; any other prior status resurrects the SAME
row to pending with invited_by repointed at the requester; with no prior row a
fresh pending invitation is inserted.  Only group_invitations is touched. -/
def inviteToGroup (st : Store) (user group_id : Nat) (email : String)
    (freshId : Nat) : InviteResult × Store :=
  match st.group_invitations.find? fun i => i.group_id == group_id && i.invited_email == email with
  | some existingInvitation =>
    if existingInvitation.status == "pending" then
      (InviteResult.duplicateInvitation, st)
    else
      (InviteResult.success,
        { st with group_invitations := st.group_invitations.map fun i =>
            if i.id == existingInvitation.id then
              { i with status := "pending", invited_by := user }
            else i })
  | none =>
    (InviteResult.success,
      { st with group_invitations := st.group_invitations ++ [{
          id := freshId,
          group_id := group_id,
          invited_by := user,
          invited_email := email,
          invited_user_id := none,
          status := "pending" }] })

/-- The INSERT into group_members: the UNIQUE(group_id, user_id) constraint
rejects a duplicate pair with error code 23505. -/
def insertGroupMember (group_members : List GroupMemberRow) (row : GroupMemberRow) :
    Except String (List GroupMemberRow) :=
  if group_members.any fun m => m.group_id == row.group_id && m.user_id == row.user_id then
    Except.error "23505"
  else
    Except.ok (group_members ++ [row])

/-- joinGroup of useGroups (accepting an invitation).  The membership check
runs against a possibly stale snapshot of group_members (two concurrent
accepts each read before the other wrote); when the snapshot shows no row the
insert is attempted against the real table and a 23505 uniqueness violation is
swallowed, while any other insert error is surfaced (none).  Afterwards the
invitation row is set to accepted with invited_user_id backfilled. -/
def joinGroup (st : Store) (snapshot : List GroupMemberRow)
    (user invitation_id group_id freshId : Nat) : Option Store :=
  let existingMember := snapshot.find? fun m => m.group_id == group_id && m.user_id == user
  let step1 : Option (List GroupMemberRow) :=
    match existingMember with
    | some _ => some st.group_members
    | none =>
      match insertGroupMember st.group_members ⟨freshId, group_id, user, "member"⟩ with
      | Except.ok ms => some ms
      | Except.error code => if code == "23505" then some st.group_members else none
  match step1 with
  | none => none
  | some ms =>
    some { st with
      group_members := ms,
      group_invitations := st.group_invitations.map fun i =>
        if i.id == invitation_id then
          { i with status := "accepted", invited_user_id := some user }
        else i }

/-- createGroup of useGroups: insert the group row, then insert the creator as
its admin member.  A failure of the second insert (rejected write, network
fault — injected here as memberInsertFails) is only caught and surfaced as an
error result: nothing deletes the already-inserted group row and nothing
retries the membership insert. -/
def createGroup (st : Store) (user : Nat) (name : String)
    (freshGroupId freshMemberId : Nat) (memberInsertFails : Bool) : Bool × Store :=
  let groupRow : GroupRow :=
    { id := freshGroupId, name := name, created_by := user, total_expenditure_limit := none }
  let st1 := { st with groups := st.groups ++ [groupRow] }
  if memberInsertFails then
    (false, st1)
  else
    (true, { st1 with group_members := st1.group_members ++ [{
        id := freshMemberId,
        group_id := freshGroupId,
        user_id := user,
        role := "admin" }] })

/-- C1: for the group budget on category-name Food with amount 500, persisted
against member 10's category row id 1, the two members' expense transactions of
300 (category id 1) and 250 (category id 2, a distinct row owned by member 20
under the same name) on the same day are both counted: spend 550, over budget,
overspend 50.  The reconciliation is by joined category name, not id. -/
theorem c1_group_budget_spend_by_name :
    foodCategories.map (fun c => (c.id, c.user_id, c.name)) =
        [(1, 10, "Food"), (2, 20, "Food")] ∧
    foodTransactions.map (fun t => (t.user_id, t.category_id, t.amount)) =
        [(10, some 1, (300 : Rat)), (20, some 2, (250 : Rat))] ∧
    (groupBudgetProgressData foodCategories foodTransactions [foodGroupBudget] 20261011).map
        (fun e => (e.name, e.spent, e.isOverBudget, e.overspent)) =
      [("Food", (550 : Rat), true, (50 : Rat))] := by
  refine ⟨by decide, ?_, ?_⟩
  · norm_num [foodTransactions]
  · norm_num [groupBudgetProgressData, foodCategories, foodTransactions, foodGroupBudget,
      GroupBudgetRow.category_name, joined_category_name, List.filter, List.find?,
      Option.map, Option.bind, show ((1 : Nat) == 2) = false from rfl]

/-- Auxiliary: a personal setBudgetLimit call on a list that already holds a
row for the category key goes through the update branch and keeps the length. -/
theorem personal_set_length_of_found (bs : List BudgetRow) (u cid : Nat) (amt : Rat)
    (today : Date) (fid : Nat)
    (h : (bs.find? fun b => b.category_id == some cid).isSome) :
    (useBudgets.setBudgetLimit bs u cid amt today fid).length = bs.length := by
  obtain ⟨ex, hex⟩ := Option.isSome_iff_exists.1 h
  unfold useBudgets.setBudgetLimit
  rw [hex]
  simp

/-- C5 counterexample: a fresh personal daily limit set on 2026-10-11 gets
end_date 2026-10-12 (the next day), not the end of the current year
2026-12-31 that the claim asserts for both scopes. -/
theorem c5_personal_end_date_counterexample :
    (useBudgets.setBudgetLimit [] 1 5 100 ⟨2026, 10, 11⟩ 7).map (fun b => b.end_date) =
      [20261012] ∧
    (Date.endOfYear ⟨2026, 10, 11⟩).code = 20261231 ∧
    (20261012 : Nat) ≠ 20261231 := by
  exact ⟨rfl, by decide, by decide⟩

/-- C5 amended: setting a limit is an upsert keyed by (scope, category
identity) — category id in personal scope, derived category name plus daily
period in group scope.  An existing row is updated in place (personal: amount
plus a re-dating to today..next-day; group: amount only) and setting a limit
twice never creates a second row; a fresh insert starts today and ends the
NEXT DAY in personal scope but December 31 of the current year in group scope. -/
theorem c5_budget_upsert_amended (bs : List BudgetRow) (gbs : List GroupBudgetRow)
    (cats : List CategoryRow) (g u cid : Nat) (cname : String) (amt amt2 : Rat)
    (today : Date) (f1 f2 : Nat)
    (hids : (cats.map fun c => c.id).Nodup) :
    (∀ ex, bs.find? (fun b => b.category_id == some cid) = some ex →
      useBudgets.setBudgetLimit bs u cid amt today f1 =
        bs.map fun b =>
          if b.id == ex.id then
            { b with
              amount := amt,
              period := "daily",
              start_date := today.code,
              end_date := today.nextDay.code }
          else b) ∧
    (bs.find? (fun b => b.category_id == some cid) = none →
      useBudgets.setBudgetLimit bs u cid amt today f1 =
        bs ++ [⟨f1, u, some cid, amt, "daily", today.code, today.nextDay.code⟩]) ∧
    (useBudgets.setBudgetLimit (useBudgets.setBudgetLimit bs u cid amt today f1)
        u cid amt2 today f2).length =
      (useBudgets.setBudgetLimit bs u cid amt today f1).length ∧
    (∀ ex, gbs.find? (fun b => b.category_name cats == cname && b.period == "daily") = some ex →
      useGroupBudgets.setBudgetLimit gbs cats g u cname amt today f1 =
        some (gbs.map fun b => if b.id == ex.id then { b with amount := amt } else b)) ∧
    (∀ cat, gbs.find? (fun b => b.category_name cats == cname && b.period == "daily") = none →
      cats.find? (fun c => c.name == cname && c.ctype == "expense") = some cat →
      useGroupBudgets.setBudgetLimit gbs cats g u cname amt today f1 =
        some (gbs ++ [⟨f1, g, some cat.id, amt, "daily", today.code, today.endOfYear.code, u⟩])) ∧
    (∀ gbs1, useGroupBudgets.setBudgetLimit gbs cats g u cname amt today f1 = some gbs1 →
      ∃ gbs2, useGroupBudgets.setBudgetLimit gbs1 cats g u cname amt2 today f2 = some gbs2 ∧
        gbs2.length = gbs1.length) := by
  refine ⟨?_, ?_, ?_, ?_, ?_, ?_⟩
  · intro ex hex
    unfold useBudgets.setBudgetLimit
    rw [hex]
  · intro hnone
    unfold useBudgets.setBudgetLimit
    rw [hnone]
  · apply personal_set_length_of_found
    unfold useBudgets.setBudgetLimit
    cases hex : bs.find? fun b => b.category_id == some cid with
    | some ex =>
      have hmem := List.mem_of_find?_eq_some hex
      have hpa := List.find?_some hex
      exact List.find?_isSome.2
        ⟨_, List.mem_map_of_mem _ hmem, by simpa using hpa⟩
    | none =>
      exact List.find?_isSome.2
        ⟨_, List.mem_append_right _ (List.mem_singleton_self _), by simp⟩
  · intro ex hex
    unfold useGroupBudgets.setBudgetLimit
    rw [hex]
  · intro cat h1 h2
    unfold useGroupBudgets.setBudgetLimit
    rw [h1, h2]
  · intro gbs1 h1
    have hkey : ∃ b ∈ gbs1, (b.category_name cats == cname && b.period == "daily") = true := by
      unfold useGroupBudgets.setBudgetLimit at h1
      cases hex : gbs.find? (fun b => b.category_name cats == cname && b.period == "daily") with
      | some ex =>
        rw [hex] at h1
        injection h1 with h1e
        subst h1e
        have hmem := List.mem_of_find?_eq_some hex
        have hpa := List.find?_some hex
        exact ⟨_, List.mem_map_of_mem _ hmem,
          by simpa [GroupBudgetRow.category_name] using hpa⟩
      | none =>
        rw [hex] at h1
        cases hcat : cats.find? (fun c => c.name == cname && c.ctype == "expense") with
        | none => rw [hcat] at h1; cases h1
        | some ucat =>
          rw [hcat] at h1
          injection h1 with h1e
          subst h1e
          have hmemc := List.mem_of_find?_eq_some hcat
          have hpac := List.find?_some hcat
          have hname : ucat.name = cname := by
            have hn := hpac
            simp only [Bool.and_eq_true, beq_iff_eq] at hn
            exact hn.1
          have hfindid : cats.find? (fun c => c.id == ucat.id) = some ucat := by
            have hs : (cats.find? (fun c => c.id == ucat.id)).isSome :=
              List.find?_isSome.2 ⟨ucat, hmemc, by simp⟩
            obtain ⟨x, hx⟩ := Option.isSome_iff_exists.1 hs
            have hxm := List.mem_of_find?_eq_some hx
            have hxp := List.find?_some hx
            have hxe : x.id = ucat.id := by simpa using hxp
            have hxu := List.inj_on_of_nodup_map hids hxm hmemc hxe
            rw [hx, hxu]
          refine ⟨_, List.mem_append_right _ (List.mem_singleton_self _), ?_⟩
          simp [GroupBudgetRow.category_name, joined_category_name, hfindid, hname]
    obtain ⟨b1, hb1, hpb1⟩ := hkey
    have h2 : (gbs1.find? fun b => b.category_name cats == cname && b.period == "daily").isSome :=
      List.find?_isSome.2 ⟨b1, hb1, hpb1⟩
    obtain ⟨e2, he2⟩ := Option.isSome_iff_exists.1 h2
    refine ⟨gbs1.map fun b => if b.id == e2.id then { b with amount := amt2 } else b, ?_, by simp⟩
    unfold useGroupBudgets.setBudgetLimit
    rw [he2]

/-- Witness for C5 at concrete rows: updating an existing personal limit for
category 5 rewrites the same row (id 40); a fresh personal set inserts one row
ending the next day; updating the existing group Food budget rewrites the same
row (id 50) changing only the amount; a fresh group set inserts one row ending
December 31; and a second group set on the result adds no second row. -/
theorem c5_budget_upsert_amended_witness :
    useBudgets.setBudgetLimit [⟨40, 1, some 5, 150, "daily", 20261001, 20261002⟩]
        1 5 200 ⟨2026, 10, 11⟩ 7 =
      [⟨40, 1, some 5, 200, "daily", 20261011, 20261012⟩] ∧
    useBudgets.setBudgetLimit [] 1 5 100 ⟨2026, 10, 11⟩ 7 =
      [⟨7, 1, some 5, 100, "daily", 20261011, 20261012⟩] ∧
    useGroupBudgets.setBudgetLimit [foodGroupBudget] foodCategories 7 1 "Food"
        200 ⟨2026, 10, 11⟩ 7 =
      some [⟨50, 7, some 1, 200, "daily", 20261001, 20261231, 10⟩] ∧
    useGroupBudgets.setBudgetLimit [] foodCategories 7 1 "Food" 100 ⟨2026, 10, 11⟩ 7 =
      some [⟨7, 7, some 1, 100, "daily", 20261011, 20261231, 1⟩] ∧
    ∃ gbs2, useGroupBudgets.setBudgetLimit
        [⟨50, 7, some 1, 200, "daily", 20261001, 20261231, 10⟩]
        foodCategories 7 1 "Food" 300 ⟨2026, 10, 11⟩ 8 = some gbs2 ∧
      gbs2.length = 1 := by
  have A := c5_budget_upsert_amended
    [⟨40, 1, some 5, 150, "daily", 20261001, 20261002⟩] [foodGroupBudget]
    foodCategories 7 1 5 "Food" 200 300 ⟨2026, 10, 11⟩ 7 8 (by decide)
  have B := c5_budget_upsert_amended [] [] foodCategories 7 1 5 "Food"
    100 100 ⟨2026, 10, 11⟩ 7 8 (by decide)
  refine ⟨?_, ?_, ?_, ?_, ?_⟩
  · have h := A.1 ⟨40, 1, some 5, 150, "daily", 20261001, 20261002⟩ rfl
    rw [h]; rfl
  · have h := B.2.1 rfl
    rw [h]; rfl
  · have h := A.2.2.2.1 foodGroupBudget rfl
    rw [h]; rfl
  · have h := B.2.2.2.2.1 ⟨1, 10, "Food", "red", "expense"⟩ rfl rfl
    rw [h]; rfl
  · have h := A.2.2.2.2.2 [⟨50, 7, some 1, 200, "daily", 20261001, 20261231, 10⟩] rfl
    obtain ⟨gbs2, hg, hl⟩ := h
    exact ⟨gbs2, hg, by simpa using hl⟩

/-- C6: the budget-period "today" is not computed in one fixed reference
timezone.  The group overview takes the client-local calendar day, and the
personal overview's IST helpers double-apply the IST offset, so both scopes
disagree with the fixed Asia/Kolkata calendar day (and with each other) for a
client outside IST; all three coincide exactly when the client offset is IST
itself. -/
theorem c6_timezone_divergence :
    groupTodayStr 1200 0 ≠ istDate 1200 ∧
    personalTodayStr 1000 0 ≠ istDate 1000 ∧
    personalTodayStr 1200 0 ≠ groupTodayStr 1200 0 ∧
    ∀ t : Int, personalTodayStr t istOffset = istDate t ∧ groupTodayStr t istOffset = istDate t := by
  refine ⟨by decide, by decide, by decide, fun t => ⟨?_, ?_⟩⟩
  · unfold personalTodayStr formatDateStringIST getCurrentDateIST istDate dayOf
    congr 1
    ring
  · rfl

/-- C7 counterexample: a zero aggregate limit does not yield a computed
percentage of 0 — the falsiness guard returns no status at all, even with
positive spend on the day. -/
theorem c7_zero_aggregate_counterexample :
    ¬ ((totalExpenditureStatus (some 0)
          [⟨1, 1, none, none, 100, "expense", 20261011⟩] 20261011).map
        (fun s => s.actualPercentage) = some 0) := by
  simp [totalExpenditureStatus]

/-- C7 amended: a per-category budget limit with amount 0 yields percentage 0
(the guarded division is skipped), in both the personal and the group scope;
a zero aggregate limit is instead treated as no limit and yields no status at
all, in both scopes (the same totalExpenditureStatus computation).  In every
case the division by the amount is executed only under an amount > 0 guard. -/
theorem c7_zero_amount_amended :
    (∀ budgets categories transactions todayStr,
      ((budgetProgressData budgets categories transactions todayStr).all fun p =>
        p.budget != 0 || (decide (p.actualPercentage = 0) && decide (p.percentage = 0))) = true) ∧
    (∀ categories transactions budgets todayStr,
      ((groupBudgetProgressData categories transactions budgets todayStr).all fun p =>
        p.budget != 0 || (decide (p.actualPercentage = 0) && decide (p.percentage = 0))) = true) ∧
    (∀ transactions todayStr, totalExpenditureStatus (some 0) transactions todayStr = none) := by
  refine ⟨?_, ?_, ?_⟩
  · intro budgets categories transactions todayStr
    rw [List.all_eq_true]
    intro p hp
    simp only [budgetProgressData, List.mem_filterMap] at hp
    obtain ⟨b, hb, hfb⟩ := hp
    cases hfind : categories.find? fun c => some c.id == b.category_id with
    | none => rw [hfind] at hfb; cases hfb
    | some cat =>
      rw [hfind] at hfb
      injection hfb with hpe
      subst hpe
      by_cases hb0 : b.amount = 0
      · simp [hb0]
      · simp [hb0]
  · intro categories transactions budgets todayStr
    rw [List.all_eq_true]
    intro p hp
    simp only [groupBudgetProgressData, List.mem_map] at hp
    obtain ⟨b, hb, hp'⟩ := hp
    subst hp'
    by_cases hb0 : b.amount = 0
    · simp [hb0]
    · simp [hb0]
  · intro transactions todayStr
    simp [totalExpenditureStatus]

/-- Auxiliary: after joinGroup's invitation update, every invitation row
carrying the accepted invitation's id has status accepted and invited_user_id
backfilled. -/
theorem mapped_invitation_accepted (invs : List GroupInvitationRow) (invitation_id user : Nat) :
    ∀ i ∈ invs.map (fun i =>
        if i.id == invitation_id then
          { i with status := "accepted", invited_user_id := some user }
        else i),
      i.id = invitation_id → i.status = "accepted" ∧ i.invited_user_id = some user := by
  intro i hi hid
  rw [List.mem_map] at hi
  obtain ⟨j, hj, rfl⟩ := hi
  cases h : j.id == invitation_id with
  | true => simp [h]
  | false =>
    exfalso
    simp only [h, Bool.false_eq_true, if_false] at hid
    rw [hid] at h
    simp at h

/-- C3: accepting an invitation is idempotent on membership.  Under the
uniqueness invariant (at most one GroupMember row per pair) and a sound
snapshot (if the pre-check saw a row, one really exists), joinGroup always
succeeds — in particular a 23505 uniqueness conflict from a concurrent accept
is swallowed, not surfaced — and leaves exactly one GroupMember row for the
pair, with the invitation transitioned to accepted and invited_user_id
backfilled to the accepting user. -/
theorem c3_accept_idempotent (st : Store) (snapshot : List GroupMemberRow)
    (user invitation_id group_id freshId : Nat)
    (huniq : st.group_members.countP
      (fun m => m.group_id == group_id && m.user_id == user) ≤ 1)
    (hsnap : ∀ m, snapshot.find?
        (fun m2 => m2.group_id == group_id && m2.user_id == user) = some m →
      ∃ m2 ∈ st.group_members, (m2.group_id == group_id && m2.user_id == user) = true) :
    (joinGroup st snapshot user invitation_id group_id freshId).isSome = true ∧
    ∀ st2, joinGroup st snapshot user invitation_id group_id freshId = some st2 →
      st2.group_members.countP (fun m => m.group_id == group_id && m.user_id == user) = 1 ∧
      ∀ i ∈ st2.group_invitations, i.id = invitation_id →
        i.status = "accepted" ∧ i.invited_user_id = some user := by
  cases hsn : snapshot.find? fun m => m.group_id == group_id && m.user_id == user with
  | some m =>
    obtain ⟨m2, hm2, hpm2⟩ := hsnap m hsn
    have hpos : 0 < st.group_members.countP
        (fun m => m.group_id == group_id && m.user_id == user) :=
      List.countP_pos_iff.2 ⟨m2, hm2, hpm2⟩
    have hcount := le_antisymm huniq hpos
    constructor
    · simp [joinGroup, hsn]
    · intro st2 hst2
      simp only [joinGroup, hsn] at hst2
      injection hst2 with he
      subst he
      exact ⟨hcount, mapped_invitation_accepted st.group_invitations invitation_id user⟩
  | none =>
    by_cases hmem : (st.group_members.any
        fun m => m.group_id == group_id && m.user_id == user) = true
    · have hpos : 0 < st.group_members.countP
          (fun m => m.group_id == group_id && m.user_id == user) :=
        List.countP_pos_iff.2 (List.any_eq_true.1 hmem)
      have hcount := le_antisymm huniq hpos
      constructor
      · simp [joinGroup, hsn, insertGroupMember, hmem]
      · intro st2 hst2
        simp only [joinGroup, hsn, insertGroupMember, hmem, if_true] at hst2
        injection hst2 with he
        subst he
        exact ⟨hcount, mapped_invitation_accepted st.group_invitations invitation_id user⟩
    · have hmem' : (st.group_members.any
          fun m => m.group_id == group_id && m.user_id == user) = false :=
        Bool.eq_false_iff.2 hmem
      have h0 : st.group_members.countP
          (fun m => m.group_id == group_id && m.user_id == user) = 0 := by
        rw [List.countP_eq_zero]
        intro a ha hpa
        exact hmem (List.any_eq_true.2 ⟨a, ha, hpa⟩)
      constructor
      · simp [joinGroup, hsn, insertGroupMember, hmem']
      · intro st2 hst2
        simp only [joinGroup, hsn, insertGroupMember, hmem', Bool.false_eq_true,
          if_false] at hst2
        injection hst2 with he
        subst he
        refine ⟨?_, mapped_invitation_accepted st.group_invitations invitation_id user⟩
        simp [List.countP_append, h0, List.countP_cons]

/-- Witness for C3 at a concrete race: user 9 was already inserted as a member
of group 5 by a concurrent accept, but the snapshot this accept checked was
still empty; the call succeeds anyway, exactly one (5,9) row remains and the
invitation ends accepted with invited_user_id 9. -/
theorem c3_accept_idempotent_witness :
    (joinGroup ⟨[], [⟨1, 5, 9, "member"⟩], [⟨3, 5, 2, "a@b", none, "pending"⟩]⟩
        [] 9 3 5 77).isSome = true ∧
    ∀ st2, joinGroup ⟨[], [⟨1, 5, 9, "member"⟩], [⟨3, 5, 2, "a@b", none, "pending"⟩]⟩
        [] 9 3 5 77 = some st2 →
      st2.group_members.countP (fun m => m.group_id == 5 && m.user_id == 9) = 1 ∧
      ∀ i ∈ st2.group_invitations, i.id = 3 →
        i.status = "accepted" ∧ i.invited_user_id = some 9 :=
  c3_accept_idempotent ⟨[], [⟨1, 5, 9, "member"⟩], [⟨3, 5, 2, "a@b", none, "pending"⟩]⟩
    [] 9 3 5 77 (by decide) (by intro m hm; simp at hm)

/-- C8: re-inviting (group, email) with a prior invitation row — unique by the
(group_id, invited_email) constraint — is rejected as a duplicate while that
row is pending, and while it is declined the SAME row (same id, no second row)
is reset to pending with invited_by repointed to the requester. -/
theorem c8_reinvite_dedup (st : Store) (user group_id : Nat) (email : String)
    (freshId : Nat) (r : GroupInvitationRow)
    (hfind : st.group_invitations.find?
      (fun i => i.group_id == group_id && i.invited_email == email) = some r) :
    (r.status = "pending" →
      inviteToGroup st user group_id email freshId =
        (InviteResult.duplicateInvitation, st)) ∧
    (r.status = "declined" →
      inviteToGroup st user group_id email freshId =
        (InviteResult.success,
          { st with group_invitations := st.group_invitations.map fun i =>
              if i.id == r.id then { i with status := "pending", invited_by := user }
              else i })) := by
  constructor
  · intro hp
    simp only [inviteToGroup, hfind]
    simp [hp]
  · intro hd
    simp only [inviteToGroup, hfind]
    simp [hd]

/-- Witness for C8: a pending invitation for (5, a@b) blocks the re-invite and
leaves the store unchanged; a declined one is resurrected in place — row id 3
is kept, invited_by becomes the new requester 9, and no second row appears. -/
theorem c8_reinvite_dedup_witness :
    inviteToGroup ⟨[], [], [⟨3, 5, 2, "a@b", none, "pending"⟩]⟩ 9 5 "a@b" 11 =
      (InviteResult.duplicateInvitation, ⟨[], [], [⟨3, 5, 2, "a@b", none, "pending"⟩]⟩) ∧
    inviteToGroup ⟨[], [], [⟨3, 5, 2, "a@b", none, "declined"⟩]⟩ 9 5 "a@b" 11 =
      (InviteResult.success, ⟨[], [], [⟨3, 5, 9, "a@b", none, "pending"⟩]⟩) := by
  have h1 := (c8_reinvite_dedup ⟨[], [], [⟨3, 5, 2, "a@b", none, "pending"⟩]⟩ 9 5 "a@b" 11
    ⟨3, 5, 2, "a@b", none, "pending"⟩ rfl).1 rfl
  have h2 := (c8_reinvite_dedup ⟨[], [], [⟨3, 5, 2, "a@b", none, "declined"⟩]⟩ 9 5 "a@b" 11
    ⟨3, 5, 2, "a@b", none, "declined"⟩ rfl).2 rfl
  exact ⟨h1, by rw [h2]; rfl⟩

/-- C9: when the admin-membership insert fails right after the group row was
inserted, createGroup merely surfaces the error: the new group row stays
persisted and no GroupMember row exists for it — there is no compensating
deletion and no retry, contradicting the required all-or-nothing unit. -/
theorem c9_create_group_orphan :
    (createGroup ⟨[], [], []⟩ 1 "trip" 10 20 true).1 = false ∧
    (createGroup ⟨[], [], []⟩ 1 "trip" 10 20 true).2.groups = [⟨10, "trip", 1, none⟩] ∧
    (createGroup ⟨[], [], []⟩ 1 "trip" 10 20 true).2.group_members = [] := by
  exact ⟨rfl, rfl, rfl⟩

/-- C10: the resurrection branch of inviteToGroup fires for every non-pending
prior status, in particular for an accepted invitation: the same row is reset
to pending with invited_by repointed, while group_members (and groups) are
left untouched. -/
theorem c10_reinvite_accepted_resets (st : Store) (user group_id : Nat) (email : String)
    (freshId : Nat) (r : GroupInvitationRow)
    (hfind : st.group_invitations.find?
      (fun i => i.group_id == group_id && i.invited_email == email) = some r)
    (hnp : r.status ≠ "pending") :
    (inviteToGroup st user group_id email freshId).1 = InviteResult.success ∧
    (inviteToGroup st user group_id email freshId).2.group_invitations =
      st.group_invitations.map (fun i =>
        if i.id == r.id then { i with status := "pending", invited_by := user } else i) ∧
    (inviteToGroup st user group_id email freshId).2.group_members = st.group_members ∧
    (inviteToGroup st user group_id email freshId).2.groups = st.groups := by
  simp only [inviteToGroup, hfind]
  simp [hnp]

/-- Witness for C10: re-inviting a@b to group 5 while its invitation row 3 is
already accepted (and user 4 is already a member) resets row 3 to pending with
invited_by 9, and the membership row survives untouched. -/
theorem c10_reinvite_accepted_resets_witness :
    (inviteToGroup ⟨[], [⟨1, 5, 4, "member"⟩], [⟨3, 5, 2, "a@b", some 4, "accepted"⟩]⟩
        9 5 "a@b" 11).1 = InviteResult.success ∧
    (inviteToGroup ⟨[], [⟨1, 5, 4, "member"⟩], [⟨3, 5, 2, "a@b", some 4, "accepted"⟩]⟩
        9 5 "a@b" 11).2.group_invitations =
      [⟨3, 5, 2, "a@b", some 4, "accepted"⟩].map (fun i =>
        if i.id == (3 : Nat) then { i with status := "pending", invited_by := 9 } else i) ∧
    (inviteToGroup ⟨[], [⟨1, 5, 4, "member"⟩], [⟨3, 5, 2, "a@b", some 4, "accepted"⟩]⟩
        9 5 "a@b" 11).2.group_members = [⟨1, 5, 4, "member"⟩] ∧
    (inviteToGroup ⟨[], [⟨1, 5, 4, "member"⟩], [⟨3, 5, 2, "a@b", some 4, "accepted"⟩]⟩
        9 5 "a@b" 11).2.groups = [] :=
  c10_reinvite_accepted_resets
    ⟨[], [⟨1, 5, 4, "member"⟩], [⟨3, 5, 2, "a@b", some 4, "accepted"⟩]⟩
    9 5 "a@b" 11 ⟨3, 5, 2, "a@b", some 4, "accepted"⟩ rfl (by decide)

end BudgetBuddy
